import Mathlib

deriving instance DecidableEq for Except

/-!
Verification of the credential-resolution and client-bootstrap subsystem of
the Azure DevOps MCP server (`src/index.ts`).

The TypeScript source is shallowly embedded: `process.env` becomes an explicit
`Env` record of `Option String` fields (JavaScript truthiness: `undefined` and
`""` are falsy); credential objects become an inductive `Credential`; the
identity provider is an oracle `Credential → String → Option AccessToken`
(`getToken` returning `null` becomes `none`); side effects (diagnostic log
lines, the `AZURE_TOKEN_CREDENTIALS` mutation, credential construction and
network calls) are recorded in an event trace returned alongside the result.
`throw new Error(msg)` becomes an `Except` error carrying the exact message;
the two throw-site families of the source are tagged `configError` (a required
setting was absent) and `authError` (the provider returned no token).
-/

namespace AdoMcp

/-- JavaScript truthiness of a `string | undefined` value: `undefined` and the
empty string are falsy, every other string is truthy. -/
def truthy : Option String → Bool
  | none => false
  | some s => !s.isEmpty

/-- JavaScript `a || b` on `string | undefined` values: returns `a` when `a` is
truthy, otherwise `b` (which may itself be `undefined` or empty). -/
def jsOr (a b : Option String) : Option String :=
  if truthy a then a else b

/-- `AccessToken` from `@azure/identity`: the opaque bearer string and the
expiry timestamp (epoch milliseconds). -/
structure AccessToken where
  token : String
  expiresOnTimestamp : Nat
  deriving DecidableEq, Repr

/-- The non-chained credential objects the source can construct
(`index.ts` lines 70, 85, 88). -/
inductive Cred
  | onBehalfOf (tenantId clientId clientSecret userAssertionToken : String)
  | defaultAzure
  | azureCli (tenantId : String)
  deriving DecidableEq, Repr

/-- A credential as used for the token request: either a single credential or
a `ChainedTokenCredential` over an ordered list of credentials (line 89). -/
inductive Credential
  | leaf (c : Cred)
  | chained (entries : List Cred)
  deriving DecidableEq, Repr

/-- Diagnostic records written with `console.error`. `oboStart` carries the
raw `string | undefined` values the source passes for the keys
`hasUserAssertion`, `hasTenant`, `hasClientId`, `hasClientSecret`
(`index.ts` lines 55–61). `oboAcquired` carries `token?.expiresOnTimestamp`
(line 72). `webApiReady` is the client-construction record (line 118). -/
inductive LogRecord
  | oboStart (hasUserAssertion hasTenant hasClientId hasClientSecret : Option String)
      (orgUrl : String)
  | oboAcquired (expiresOn : Option Nat)
  | webApiReady (orgUrl : String) (authMode : String)
  deriving DecidableEq, Repr

/-- Observable side effects of one invocation, in program order. -/
inductive Event
  | log (record : LogRecord)
  | setEnvVar (name value : String)
  | construct (c : Credential)
  | getToken (c : Credential) (scope : String)
  deriving DecidableEq, Repr

/-- Errors thrown by the subsystem, tagged by throw-site family and carrying
the source's exact message. -/
inductive AdoError
  | configError (msg : String)
  | authError (msg : String)
  deriving DecidableEq, Repr

/-- The environment variables the subsystem reads or writes, as
`string | undefined`. -/
structure Env where
  ADO_AUTH : Option String := none
  MCP_USER_ASSERTION : Option String := none
  ADO_USER_ASSERTION : Option String := none
  AZURE_AD_TENANT_ID : Option String := none
  AZURE_TENANT_ID : Option String := none
  AZURE_AD_CLIENT_ID : Option String := none
  AZURE_CLIENT_ID : Option String := none
  AZURE_AD_CLIENT_SECRET : Option String := none
  AZURE_CLIENT_SECRET : Option String := none
  ADO_MCP_AZURE_TOKEN_CREDENTIALS : Option String := none
  AZURE_TOKEN_CREDENTIALS : Option String := none
  deriving DecidableEq, Repr

/-- The fixed Azure DevOps resource scope (`index.ts` line 45). -/
def adoScope : String := "499b84ac-1321-427f-aa17-267ca6975798/.default"

/-- ASCII lowercasing, modelling `String.prototype.toLowerCase` on the ASCII
range (the range the `"obo"` comparison is about). -/
def toLowerAscii (s : String) : String :=
  ⟨s.data.map Char.toLower⟩

/-- `(process.env.ADO_AUTH || "").toLowerCase()` (lines 46 and 102).
`Option.getD ""` models `x || ""` exactly: a missing or empty variable yields
`""`. -/
def authModeOf (env : Env) : String :=
  toLowerAscii (env.ADO_AUTH.getD "")

/-- Throw message at line 64. -/
def oboAssertionMissingMsg : String :=
  "ADO_AUTH=obo is set but MCP_USER_ASSERTION was not provided."

/-- Throw message at line 67. -/
def oboConfigMissingMsg : String :=
  "ADO_AUTH=obo requires AZURE_(AD_)TENANT_ID, AZURE_(AD_)CLIENT_ID and AZURE_(AD_)CLIENT_SECRET to be set."

/-- Throw message at line 74. -/
def oboNoTokenMsg : String :=
  "On-behalf-of flow failed to acquire Azure DevOps token."

/-- Throw message at line 94. -/
def defaultNoTokenMsg : String :=
  "Failed to obtain Azure DevOps token. Ensure you have Azure CLI logged in or another token source setup correctly."

/-- The value assigned to `AZURE_TOKEN_CREDENTIALS` on the default path
(lines 80–84): the override variable's value when truthy, else `"dev"`. -/
def tokenCredentialsSelector (env : Env) : String :=
  if truthy env.ADO_MCP_AZURE_TOKEN_CREDENTIALS then
    env.ADO_MCP_AZURE_TOKEN_CREDENTIALS.getD ""
  else "dev"

/-- The credential built on the default path (lines 85–90): a
`DefaultAzureCredential`, wrapped — when the startup-captured `tenantId` is
truthy — in a `ChainedTokenCredential` with a tenant-scoped
`AzureCliCredential` placed first. -/
def defaultPathCredential (startupTenantId : Option String) : Credential :=
  if truthy startupTenantId then
    Credential.chained
      [Cred.azureCli (startupTenantId.getD ""), Cred.defaultAzure]
  else Credential.leaf Cred.defaultAzure

/-- Modelled from the spec (behavior of the external `@azure/identity`
`ChainedTokenCredential`, not code of this repository): entries are tried
strictly in order and the first successful token is returned. -/
def chainGetToken (provider : Cred → String → Option AccessToken) :
    List Cred → String → Option AccessToken
  | [], _ => none
  | c :: cs, scope =>
    match provider c scope with
    | some t => some t
    | none => chainGetToken provider cs scope

/-- Modelled from the spec (external SDK chain semantics, as `chainGetToken`),
additionally recording which entries were contacted, in order. -/
def chainAttempts (provider : Cred → String → Option AccessToken) :
    List Cred → String → List Cred × Option AccessToken
  | [], _ => ([], none)
  | c :: cs, scope =>
    match provider c scope with
    | some t => ([c], some t)
    | none =>
      let r := chainAttempts provider cs scope
      (c :: r.1, r.2)

/-- `getToken` on a constructed credential: a chain delegates to its entries in
order (`chainGetToken`); a single credential queries the provider oracle. -/
def credGetToken (provider : Cred → String → Option AccessToken)
    (c : Credential) (scope : String) : Option AccessToken :=
  match c with
  | Credential.chained cs => chainGetToken provider cs scope
  | Credential.leaf c => provider c scope

/-- Line 50: `process.env.MCP_USER_ASSERTION || process.env.ADO_USER_ASSERTION`. -/
def oboUserAssertionOf (env : Env) : Option String :=
  jsOr env.MCP_USER_ASSERTION env.ADO_USER_ASSERTION

/-- Line 51: `process.env.AZURE_AD_TENANT_ID || process.env.AZURE_TENANT_ID ||
tenantId`, where `tenantId` is the module-level constant captured at process
start from `argv.tenant || process.env.AZURE_AD_TENANT_ID` (line 38). -/
def oboTenantOf (startupTenantId : Option String) (env : Env) : Option String :=
  jsOr env.AZURE_AD_TENANT_ID (jsOr env.AZURE_TENANT_ID startupTenantId)

/-- Line 52: `process.env.AZURE_AD_CLIENT_ID || process.env.AZURE_CLIENT_ID`. -/
def oboClientIdOf (env : Env) : Option String :=
  jsOr env.AZURE_AD_CLIENT_ID env.AZURE_CLIENT_ID

/-- Line 53: `process.env.AZURE_AD_CLIENT_SECRET || process.env.AZURE_CLIENT_SECRET`. -/
def oboClientSecretOf (env : Env) : Option String :=
  jsOr env.AZURE_AD_CLIENT_SECRET env.AZURE_CLIENT_SECRET

/-- The `OnBehalfOfCredential` constructed at line 70 from the resolved
configuration fields. -/
def oboCredOf (startupTenantId : Option String) (env : Env) : Cred :=
  Cred.onBehalfOf ((oboTenantOf startupTenantId env).getD "")
    ((oboClientIdOf env).getD "") ((oboClientSecretOf env).getD "")
    ((oboUserAssertionOf env).getD "")

/-- The on-behalf-of branch of `getAzureDevOpsToken` (lines 49–77).
`startupTenantId` is the module-level `const tenantId` captured at process
start (line 38). -/
def oboResolve (startupTenantId : Option String) (orgUrl : String)
    (provider : Cred → String → Option AccessToken) (env : Env) :
    Except AdoError AccessToken × Env × List Event :=
  let userAssertion := oboUserAssertionOf env
  let envTenant := oboTenantOf startupTenantId env
  let clientId := oboClientIdOf env
  let clientSecret := oboClientSecretOf env
  let startLog := Event.log
    (LogRecord.oboStart userAssertion envTenant clientId clientSecret orgUrl)
  if !truthy userAssertion then
    (Except.error (AdoError.configError oboAssertionMissingMsg), env, [startLog])
  else if !truthy envTenant || !truthy clientId || !truthy clientSecret then
    (Except.error (AdoError.configError oboConfigMissingMsg), env, [startLog])
  else
    let obo := oboCredOf startupTenantId env
    let ev := [startLog, Event.construct (Credential.leaf obo),
      Event.getToken (Credential.leaf obo) adoScope]
    match credGetToken provider (Credential.leaf obo) adoScope with
    | some token =>
      (Except.ok token, env,
        ev ++ [Event.log (LogRecord.oboAcquired (some token.expiresOnTimestamp))])
    | none =>
      (Except.error (AdoError.authError oboNoTokenMsg), env,
        ev ++ [Event.log (LogRecord.oboAcquired none)])

/-- The default-chain branch of `getAzureDevOpsToken` (lines 79–96): set
`AZURE_TOKEN_CREDENTIALS`, construct the credential (chain), request a token. -/
def defaultResolve (startupTenantId : Option String)
    (provider : Cred → String → Option AccessToken) (env : Env) :
    Except AdoError AccessToken × Env × List Event :=
  let sel := tokenCredentialsSelector env
  let env1 := { env with AZURE_TOKEN_CREDENTIALS := some sel }
  let credential := defaultPathCredential startupTenantId
  let constructs :=
    if truthy startupTenantId then
      [Event.construct (Credential.leaf Cred.defaultAzure),
       Event.construct (Credential.leaf (Cred.azureCli (startupTenantId.getD ""))),
       Event.construct credential]
    else [Event.construct (Credential.leaf Cred.defaultAzure)]
  let ev := Event.setEnvVar "AZURE_TOKEN_CREDENTIALS" sel ::
    (constructs ++ [Event.getToken credential adoScope])
  match credGetToken provider credential adoScope with
  | some token => (Except.ok token, env1, ev)
  | none => (Except.error (AdoError.authError defaultNoTokenMsg), env1, ev)

/-- `getAzureDevOpsToken` (lines 44–97): one token resolution. Selects the
on-behalf-of branch exactly when the lowercased `ADO_AUTH` equals `"obo"`,
else the default-chain branch. -/
def getAzureDevOpsToken (startupTenantId : Option String) (orgUrl : String)
    (provider : Cred → String → Option AccessToken) (env : Env) :
    Except AdoError AccessToken × Env × List Event :=
  if authModeOf env == "obo" then
    oboResolve startupTenantId orgUrl provider env
  else
    defaultResolve startupTenantId provider env

/-- The `{ productName, productVersion, userAgent }` metadata attached to the
client (lines 105–109 and 112–116). -/
structure ClientOptions where
  productName : String
  productVersion : String
  userAgent : String
  deriving DecidableEq, Repr

/-- The `azdev.WebApi` connection object, tagged by which construction path
built it: `WebApi.createWithBearerToken` (line 105) or `new azdev.WebApi` with
`getBearerHandler(token)` (lines 111–112). Both carry the org URL, the bearer
token string they were given, and the metadata. -/
inductive Connection
  | createWithBearerToken (orgUrl token : String) (opts : ClientOptions)
  | webApiWithHandler (orgUrl token : String) (opts : ClientOptions)
  deriving DecidableEq, Repr

/-- The bearer token string a connection was constructed with. -/
def Connection.bearer : Connection → String
  | Connection.createWithBearerToken _ t _ => t
  | Connection.webApiWithHandler _ t _ => t

/-- Whether a connection was built through the direct bearer-token
constructor. -/
def Connection.viaBearerCtor : Connection → Bool
  | Connection.createWithBearerToken _ _ _ => true
  | Connection.webApiWithHandler _ _ _ => false

/-- The closure returned by `getAzureDevOpsClient` (lines 99–121): resolve a
token, re-read the auth mode, pick a construction strategy, log, return the
connection. `hasCreateWithBearerToken` models the feature check
`typeof (azdev.WebApi as any).createWithBearerToken === "function"`;
`packageVersion` and `userAgent` model the imported version constant and the
live `userAgentComposer.userAgent` read. A thrown token-resolution error
propagates as-is. -/
def getAzureDevOpsClient (startupTenantId : Option String) (orgUrl : String)
    (hasCreateWithBearerToken : Bool) (packageVersion userAgent : String)
    (provider : Cred → String → Option AccessToken) (env : Env) :
    Except AdoError Connection × Env × List Event :=
  match getAzureDevOpsToken startupTenantId orgUrl provider env with
  | (Except.error e, env1, ev) => (Except.error e, env1, ev)
  | (Except.ok token, env1, ev) =>
    let authMode := authModeOf env1
    let opts : ClientOptions :=
      ⟨"AzureDevOps.MCP", packageVersion, userAgent⟩
    let connection :=
      if authMode == "obo" && hasCreateWithBearerToken then
        Connection.createWithBearerToken orgUrl token.token opts
      else
        Connection.webApiWithHandler orgUrl token.token opts
    (Except.ok connection, env1,
      ev ++ [Event.log (LogRecord.webApiReady orgUrl authMode)])

/-- Whether an event constructs or contacts an ambient-chain credential
(`DefaultAzureCredential`, `AzureCliCredential`, or a chain). -/
def Event.touchesAmbient : Event → Bool
  | Event.construct (Credential.leaf (Cred.onBehalfOf _ _ _ _)) => false
  | Event.construct _ => true
  | Event.getToken (Credential.leaf (Cred.onBehalfOf _ _ _ _)) _ => false
  | Event.getToken _ _ => true
  | _ => false

/-- Whether an event belongs to the on-behalf-of strategy: constructing or
contacting an `OnBehalfOfCredential`, or an OBO diagnostic record. -/
def Event.touchesObo : Event → Bool
  | Event.construct (Credential.leaf (Cred.onBehalfOf _ _ _ _)) => true
  | Event.getToken (Credential.leaf (Cred.onBehalfOf _ _ _ _)) _ => true
  | Event.log (LogRecord.oboStart _ _ _ _ _) => true
  | Event.log (LogRecord.oboAcquired _) => true
  | _ => false

/-- Whether an event is a token request to the identity provider (a network
call). -/
def Event.isNetworkCall : Event → Bool
  | Event.getToken _ _ => true
  | _ => false

/-- Whether an event writes an environment variable. -/
def Event.isSetEnvVar : Event → Bool
  | Event.setEnvVar _ _ => true
  | _ => false

/-- Whether an event is the OBO pre-call diagnostic record. -/
def Event.isOboStart : Event → Bool
  | Event.log (LogRecord.oboStart _ _ _ _ _) => true
  | _ => false

/-! ### Concrete fixtures used to evaluate the model on closed inputs -/

/-- A provider that always yields a token. -/
def provFix : Cred → String → Option AccessToken := fun _ _ => some ⟨"tok", 1000⟩

/-- A provider that never yields a token (`getToken` returns `null`). -/
def provNil : Cred → String → Option AccessToken := fun _ _ => none

/-- A provider that yields a token object whose bearer string is empty. -/
def provEmptyTok : Cred → String → Option AccessToken := fun _ _ => some ⟨"", 0⟩

/-- An environment selecting OBO mode with the full OBO configuration. -/
def envOboFull : Env :=
  { ADO_AUTH := some "obo"
    MCP_USER_ASSERTION := some "ua-jwt"
    AZURE_AD_TENANT_ID := some "tid"
    AZURE_AD_CLIENT_ID := some "cid"
    AZURE_AD_CLIENT_SECRET := some "s3cret-value" }

/-- An environment with every variable unset (default path). -/
def envBare : Env := {}

/-- OBO mode with both tenant environment variables unset but the client id,
client secret and user assertion present. -/
def envOboNoTenantVars : Env :=
  { ADO_AUTH := some "obo"
    MCP_USER_ASSERTION := some "ua-jwt"
    AZURE_AD_CLIENT_ID := some "cid"
    AZURE_AD_CLIENT_SECRET := some "cs" }

/-- OBO mode selected with a mixed-case flag value. -/
def envOboMixedCase : Env :=
  { ADO_AUTH := some "ObO"
    MCP_USER_ASSERTION := some "ua-jwt"
    AZURE_AD_TENANT_ID := some "tid"
    AZURE_AD_CLIENT_ID := some "cid"
    AZURE_AD_CLIENT_SECRET := some "s3cret-value" }

/-- OBO mode with the user assertion absent. -/
def envOboNoAssertion : Env :=
  { ADO_AUTH := some "obo"
    AZURE_AD_TENANT_ID := some "tid"
    AZURE_AD_CLIENT_ID := some "cid"
    AZURE_AD_CLIENT_SECRET := some "cs" }

/-! ### Helper lemmas -/

theorem getToken_obo_eq (st : Option String) (url : String)
    (provider : Cred → String → Option AccessToken) (env : Env)
    (h : authModeOf env = "obo") :
    getAzureDevOpsToken st url provider env = oboResolve st url provider env := by
  simp [getAzureDevOpsToken, h]

theorem getToken_default_eq (st : Option String) (url : String)
    (provider : Cred → String → Option AccessToken) (env : Env)
    (h : authModeOf env ≠ "obo") :
    getAzureDevOpsToken st url provider env = defaultResolve st provider env := by
  simp [getAzureDevOpsToken, h]

theorem resolve_preserves_ADO_AUTH (st : Option String) (url : String)
    (provider : Cred → String → Option AccessToken) (env : Env) :
    (getAzureDevOpsToken st url provider env).2.1.ADO_AUTH = env.ADO_AUTH := by
  unfold getAzureDevOpsToken oboResolve defaultResolve
  dsimp only
  split
  · split
    · rfl
    · split
      · rfl
      · split <;> rfl
  · split <;> rfl

theorem defaultResolve_env (st : Option String)
    (provider : Cred → String → Option AccessToken) (env : Env) :
    (defaultResolve st provider env).2.1
      = { env with AZURE_TOKEN_CREDENTIALS := some (tokenCredentialsSelector env) } := by
  unfold defaultResolve
  dsimp only
  split <;> rfl

theorem defaultResolve_trace_head (st : Option String)
    (provider : Cred → String → Option AccessToken) (env : Env) :
    ∃ rest, (defaultResolve st provider env).2.2
      = Event.setEnvVar "AZURE_TOKEN_CREDENTIALS" (tokenCredentialsSelector env) :: rest := by
  unfold defaultResolve
  dsimp only
  split <;> exact ⟨_, rfl⟩

/-! ### Claims -/

/-- Claim C1, amended: on the default path (`AuthMode ≠ OnBehalfOf`), the
`AZURE_TOKEN_CREDENTIALS` variable is assigned — the value of
`ADO_MCP_AZURE_TOKEN_CREDENTIALS` when that is set, otherwise `"dev"` — as the
first observable effect of the invocation, hence before any credential object
is constructed. (The original claim's "regardless of AuthMode" fails: see the
counterexample — in OnBehalfOf mode the variable is never assigned.) -/
theorem C1_default_path_sets_chain_selector (st : Option String) (url : String)
    (provider : Cred → String → Option AccessToken) (env : Env)
    (h : authModeOf env ≠ "obo") :
    (getAzureDevOpsToken st url provider env).2.1.AZURE_TOKEN_CREDENTIALS
      = some (tokenCredentialsSelector env)
    ∧ (∃ rest, (getAzureDevOpsToken st url provider env).2.2
        = Event.setEnvVar "AZURE_TOKEN_CREDENTIALS" (tokenCredentialsSelector env) :: rest)
    ∧ (truthy env.ADO_MCP_AZURE_TOKEN_CREDENTIALS = false →
        tokenCredentialsSelector env = "dev") := by
  rw [getToken_default_eq st url provider env h]
  refine ⟨?_, defaultResolve_trace_head st provider env, ?_⟩
  · rw [defaultResolve_env st provider env]
  · intro hov
    simp [tokenCredentialsSelector, hov]

theorem C1_default_path_sets_chain_selector_witness :
    (getAzureDevOpsToken none "u" provNil envBare).2.1.AZURE_TOKEN_CREDENTIALS
      = some (tokenCredentialsSelector envBare)
    ∧ (∃ rest, (getAzureDevOpsToken none "u" provNil envBare).2.2
        = Event.setEnvVar "AZURE_TOKEN_CREDENTIALS" (tokenCredentialsSelector envBare) :: rest)
    ∧ (truthy envBare.ADO_MCP_AZURE_TOKEN_CREDENTIALS = false →
        tokenCredentialsSelector envBare = "dev") :=
  C1_default_path_sets_chain_selector none "u" provNil envBare (by decide)

/-- Claim C1, counterexample: an OnBehalfOf-mode invocation constructs an
`OnBehalfOfCredential` while `AZURE_TOKEN_CREDENTIALS` is never assigned (the
final environment still has it unset and the trace contains no environment
write), refuting "for every invocation, regardless of AuthMode". -/
theorem C1_counterexample :
    (getAzureDevOpsToken none "u" provFix envOboFull).2.1.AZURE_TOKEN_CREDENTIALS = none
    ∧ Event.construct (Credential.leaf (Cred.onBehalfOf "tid" "cid" "s3cret-value" "ua-jwt"))
        ∈ (getAzureDevOpsToken none "u" provFix envOboFull).2.2
    ∧ (getAzureDevOpsToken none "u" provFix envOboFull).2.2.all
        (fun e => !e.isSetEnvVar) = true := by decide

/-- Claim C2: the claim says the pre-call diagnostic record contains only redacted
presence flags, never the secret values. The code (lines 55–61) passes the raw
`userAssertion`, `envTenant`, `clientId` and `clientSecret` strings as the
values of keys named `hasUserAssertion`/`hasTenant`/`hasClientId`/
`hasClientSecret`: at this input the emitted record contains the literal
client secret `"s3cret-value"` and the raw user assertion. The after-success
record does carry only the expiry timestamp. -/
theorem C2_preCall_record_contains_secret :
    (getAzureDevOpsToken none "https://dev.azure.com/contoso" provFix envOboFull).2.2.head?
      = some (Event.log (LogRecord.oboStart (some "ua-jwt") (some "tid") (some "cid")
          (some "s3cret-value") "https://dev.azure.com/contoso"))
    ∧ Event.log (LogRecord.oboAcquired (some 1000))
        ∈ (getAzureDevOpsToken none "https://dev.azure.com/contoso" provFix envOboFull).2.2 := by
  decide

/-- Claim C3: per resolution, exactly one strategy executes — the delegated path
(witnessed by its pre-call record) iff the lowercased `ADO_AUTH` is `"obo"`,
with no ambient-chain credential constructed or contacted in that mode; the
default-chain path (witnessed by the chain-selector write) otherwise, with
nothing on-behalf-of constructed, contacted or logged. -/
theorem C3_exactly_one_strategy (st : Option String) (url : String)
    (provider : Cred → String → Option AccessToken) (env : Env) :
    (authModeOf env = "obo" →
      (getAzureDevOpsToken st url provider env).2.2.any Event.isOboStart = true
      ∧ (getAzureDevOpsToken st url provider env).2.2.all
          (fun e => !e.touchesAmbient) = true)
    ∧ (authModeOf env ≠ "obo" →
      (getAzureDevOpsToken st url provider env).2.2.any Event.isSetEnvVar = true
      ∧ (getAzureDevOpsToken st url provider env).2.2.all
          (fun e => !e.touchesObo) = true) := by
  constructor
  · intro h
    rw [getToken_obo_eq st url provider env h]
    unfold oboResolve
    dsimp only
    split
    · exact ⟨rfl, rfl⟩
    · split
      · exact ⟨rfl, rfl⟩
      · split <;> exact ⟨rfl, rfl⟩
  · intro h
    rw [getToken_default_eq st url provider env h]
    unfold defaultResolve
    dsimp only
    split
    all_goals
      refine ⟨rfl, ?_⟩
      by_cases hst : truthy st = true <;>
        simp [defaultPathCredential, Event.touchesObo, hst]

theorem C3_exactly_one_strategy_witness :
    ((getAzureDevOpsToken none "u" provFix envOboFull).2.2.any Event.isOboStart = true
      ∧ (getAzureDevOpsToken none "u" provFix envOboFull).2.2.all
          (fun e => !e.touchesAmbient) = true)
    ∧ ((getAzureDevOpsToken none "u" provFix envBare).2.2.any Event.isSetEnvVar = true
      ∧ (getAzureDevOpsToken none "u" provFix envBare).2.2.all
          (fun e => !e.touchesObo) = true) :=
  ⟨(C3_exactly_one_strategy none "u" provFix envOboFull).1 (by decide),
   (C3_exactly_one_strategy none "u" provFix envBare).2 (by decide)⟩

/-- Claim C4: in OnBehalfOf mode, an absent user-assertion token fails with its own
configuration error, and — with the assertion present — an absent tenant id,
client id or client secret fails with the one combined configuration error; in
both cases no token request (network call) appears in the trace. -/
theorem C4_missing_obo_config_fails_before_network (st : Option String)
    (url : String) (provider : Cred → String → Option AccessToken) (env : Env)
    (h : authModeOf env = "obo") :
    (truthy (oboUserAssertionOf env) = false →
      (getAzureDevOpsToken st url provider env).1
        = Except.error (AdoError.configError oboAssertionMissingMsg)
      ∧ (getAzureDevOpsToken st url provider env).2.2.all
          (fun e => !e.isNetworkCall) = true)
    ∧ (truthy (oboUserAssertionOf env) = true →
      (truthy (oboTenantOf st env) && truthy (oboClientIdOf env)
          && truthy (oboClientSecretOf env)) = false →
      (getAzureDevOpsToken st url provider env).1
        = Except.error (AdoError.configError oboConfigMissingMsg)
      ∧ (getAzureDevOpsToken st url provider env).2.2.all
          (fun e => !e.isNetworkCall) = true) := by
  rw [getToken_obo_eq st url provider env h]
  unfold oboResolve
  dsimp only
  constructor
  · intro hu
    simp [hu, Event.isNetworkCall]
  · intro hu habs
    have hcond : (!truthy (oboTenantOf st env) || !truthy (oboClientIdOf env)
        || !truthy (oboClientSecretOf env)) = true := by
      rcases Bool.and_eq_false_iff.mp habs with h1 | h1
      · rcases Bool.and_eq_false_iff.mp h1 with h2 | h2 <;> simp [h2]
      · simp [h1]
    simp [hu, hcond, Event.isNetworkCall]

theorem C4_missing_obo_config_fails_before_network_witness :
    truthy (oboUserAssertionOf envOboNoAssertion) = false
    ∧ ((getAzureDevOpsToken none "u" provFix envOboNoAssertion).1
        = Except.error (AdoError.configError oboAssertionMissingMsg)
      ∧ (getAzureDevOpsToken none "u" provFix envOboNoAssertion).2.2.all
          (fun e => !e.isNetworkCall) = true) :=
  ⟨by decide,
   (C4_missing_obo_config_fails_before_network none "u" provFix envOboNoAssertion
      (by decide)).1 (by decide)⟩

theorem resolve_preserves_authMode (st : Option String) (url : String)
    (provider : Cred → String → Option AccessToken) (env : Env) :
    authModeOf (getAzureDevOpsToken st url provider env).2.1 = authModeOf env := by
  unfold authModeOf
  rw [resolve_preserves_ADO_AUTH]

theorem client_ok_cases (st : Option String) (url : String) (hc : Bool)
    (pv ua : String) (provider : Cred → String → Option AccessToken) (env : Env)
    (c : Connection) (env1 : Env) (ev : List Event)
    (hres : getAzureDevOpsClient st url hc pv ua provider env
      = (Except.ok c, env1, ev)) :
    ∃ tok ev0, getAzureDevOpsToken st url provider env = (Except.ok tok, env1, ev0)
      ∧ ev = ev0 ++ [Event.log (LogRecord.webApiReady url (authModeOf env1))]
      ∧ c = (if (authModeOf env1 == "obo") && hc then
              Connection.createWithBearerToken url tok.token ⟨"AzureDevOps.MCP", pv, ua⟩
            else
              Connection.webApiWithHandler url tok.token ⟨"AzureDevOps.MCP", pv, ua⟩) := by
  unfold getAzureDevOpsClient at hres
  rcases hr : getAzureDevOpsToken st url provider env with ⟨res, env2, ev2⟩
  rw [hr] at hres
  cases res with
  | error e => exact absurd hres (by simp)
  | ok tok =>
    dsimp only at hres
    rw [Prod.mk.injEq, Prod.mk.injEq, Except.ok.injEq] at hres
    obtain ⟨hok, henv, hev⟩ := hres
    subst henv
    exact ⟨tok, ev2, rfl, hev.symm, hok.symm⟩

/-- Claim C5: a failed token resolution propagates out of the client factory
unchanged — same error, same environment, same trace, hence no connection
object and no retry — and when the identity provider returns no token the
resolution itself fails with the authentication error of its path. -/
theorem C5_no_token_no_handle (st : Option String) (url : String) (hc : Bool)
    (pv ua : String) (provider : Cred → String → Option AccessToken) (env : Env) :
    (∀ e env1 ev, getAzureDevOpsToken st url provider env = (Except.error e, env1, ev) →
      getAzureDevOpsClient st url hc pv ua provider env = (Except.error e, env1, ev))
    ∧ (authModeOf env = "obo" →
      truthy (oboUserAssertionOf env) = true →
      (truthy (oboTenantOf st env) && truthy (oboClientIdOf env)
          && truthy (oboClientSecretOf env)) = true →
      provider (oboCredOf st env) adoScope = none →
      (getAzureDevOpsToken st url provider env).1
        = Except.error (AdoError.authError oboNoTokenMsg))
    ∧ (authModeOf env ≠ "obo" →
      credGetToken provider (defaultPathCredential st) adoScope = none →
      (getAzureDevOpsToken st url provider env).1
        = Except.error (AdoError.authError defaultNoTokenMsg)) := by
  refine ⟨?_, ?_, ?_⟩
  · intro e env1 ev hres
    unfold getAzureDevOpsClient
    rw [hres]
  · intro h hu hall hn
    rw [getToken_obo_eq st url provider env h]
    unfold oboResolve
    dsimp only
    obtain ⟨h1, h3⟩ := Bool.and_eq_true_iff.mp hall
    obtain ⟨ht, hcid⟩ := Bool.and_eq_true_iff.mp h1
    simp [hu, ht, hcid, h3, credGetToken, hn]
  · intro h hn
    rw [getToken_default_eq st url provider env h]
    unfold defaultResolve
    dsimp only
    simp [hn]

theorem C5_no_token_no_handle_witness :
    (getAzureDevOpsToken none "u" provNil envBare).1
      = Except.error (AdoError.authError defaultNoTokenMsg) :=
  (C5_no_token_no_handle none "u" false "v" "ua" provNil envBare).2.2
    (by decide) (by decide)

/-- Claim C6, counterexample: with a provider that returns a token object whose
bearer string is empty, `getAzureDevOpsClient` succeeds and constructs the
connection with the empty token string — the `!token` check at line 93 tests
only for a missing token object, not a non-empty string — refuting the
"non-empty string" part of the claim. -/
theorem C6_counterexample :
    (getAzureDevOpsClient none "u" false "v" "ua" provEmptyTok envBare).1
      = Except.ok (Connection.webApiWithHandler "u" "" ⟨"AzureDevOps.MCP", "v", "ua"⟩)
    ∧ (Connection.webApiWithHandler "u" "" ⟨"AzureDevOps.MCP", "v", "ua"⟩).bearer.isEmpty
      = true := by decide

/-- Claim C6, amended: on every successful `buildClient()` call the bearer string
passed to the connection constructor is exactly the `token` field of an
`AccessToken` resolved by `getAzureDevOpsToken` within that same call; the
code does not additionally guarantee that this string is non-empty. -/
theorem C6_fresh_token_used (st : Option String) (url : String) (hc : Bool)
    (pv ua : String) (provider : Cred → String → Option AccessToken) (env : Env) :
    ∀ c env1 ev, getAzureDevOpsClient st url hc pv ua provider env
        = (Except.ok c, env1, ev) →
      ∃ tok ev0, getAzureDevOpsToken st url provider env = (Except.ok tok, env1, ev0)
        ∧ c.bearer = tok.token := by
  intro c env1 ev hres
  obtain ⟨tok, ev0, hr, -, hcon⟩ :=
    client_ok_cases st url hc pv ua provider env c env1 ev hres
  refine ⟨tok, ev0, hr, ?_⟩
  rw [hcon]
  cases (authModeOf env1 == "obo") && hc <;> rfl

theorem C6_fresh_token_used_witness :
    ∃ tok ev0, getAzureDevOpsToken none "u" provFix envBare
        = (Except.ok tok, { envBare with AZURE_TOKEN_CREDENTIALS := some "dev" }, ev0)
      ∧ (Connection.webApiWithHandler "u" "tok" ⟨"AzureDevOps.MCP", "v", "ua"⟩).bearer
        = tok.token :=
  C6_fresh_token_used none "u" false "v" "ua" provFix envBare
    (Connection.webApiWithHandler "u" "tok" ⟨"AzureDevOps.MCP", "v", "ua"⟩)
    { envBare with AZURE_TOKEN_CREDENTIALS := some "dev" }
    [Event.setEnvVar "AZURE_TOKEN_CREDENTIALS" "dev",
     Event.construct (Credential.leaf Cred.defaultAzure),
     Event.getToken (Credential.leaf Cred.defaultAzure) adoScope,
     Event.log (LogRecord.webApiReady "u" "")]
    (by decide)

theorem trace_oboStart_iff_mode (st : Option String) (url : String)
    (provider : Cred → String → Option AccessToken) (env : Env) :
    (getAzureDevOpsToken st url provider env).2.2.any Event.isOboStart
      = (authModeOf env == "obo") := by
  by_cases h : authModeOf env = "obo"
  · rw [getToken_obo_eq st url provider env h]
    unfold oboResolve
    dsimp only
    split
    · simp [h, Event.isOboStart]
    · split
      · simp [h, Event.isOboStart]
      · split <;> simp [h, Event.isOboStart]
  · rw [getToken_default_eq st url provider env h]
    unfold defaultResolve
    dsimp only
    split
    all_goals
      by_cases hst : truthy st = true <;>
        simp [h, hst, Event.isOboStart]

/-- Claim C7, counterexample: two invocations in the same process (same
startup-captured tenant) between which only the `ADO_AUTH` environment
variable differs observe different AuthModes — the first logs auth mode
`"obo"`, the second logs auth mode `""` — refuting "any two operations within
one process observe the same AuthMode, even if the ADO_AUTH environment
variable changes between calls". -/
theorem C7_counterexample :
    Event.log (LogRecord.webApiReady "u" "obo")
      ∈ (getAzureDevOpsClient none "u" true "v" "ua" provFix envOboFull).2.2
    ∧ Event.log (LogRecord.webApiReady "u" "")
      ∈ (getAzureDevOpsClient none "u" true "v" "ua" provFix
          { envOboFull with ADO_AUTH := none }).2.2 := by decide

/-- Claim C7, amended: AuthMode is not captured once per process — it is derived
from `ADO_AUTH` afresh at each operation, from the environment current at call
time: a resolution leaves `ADO_AUTH` unchanged, selects the OBO path exactly
when the current lowercased `ADO_AUTH` is `"obo"`, and a successful client
construction logs the auth mode derived from the same current environment. -/
theorem C7_authmode_derived_per_call (st : Option String) (url : String)
    (hc : Bool) (pv ua : String)
    (provider : Cred → String → Option AccessToken) (env : Env) :
    ((getAzureDevOpsToken st url provider env).2.1.ADO_AUTH = env.ADO_AUTH)
    ∧ ((getAzureDevOpsToken st url provider env).2.2.any Event.isOboStart
        = (authModeOf env == "obo"))
    ∧ (∀ c env1 ev, getAzureDevOpsClient st url hc pv ua provider env
          = (Except.ok c, env1, ev) →
        Event.log (LogRecord.webApiReady url (authModeOf env)) ∈ ev) := by
  refine ⟨resolve_preserves_ADO_AUTH st url provider env,
    trace_oboStart_iff_mode st url provider env, ?_⟩
  intro c env1 ev hres
  obtain ⟨tok, ev0, hr, hev, -⟩ :=
    client_ok_cases st url hc pv ua provider env c env1 ev hres
  have hmode : authModeOf env1 = authModeOf env := by
    have hp := resolve_preserves_authMode st url provider env
    rw [hr] at hp
    exact hp
  rw [hev, hmode]
  simp

theorem C7_authmode_derived_per_call_witness :
    ((getAzureDevOpsToken none "u" provFix envOboFull).2.1.ADO_AUTH
        = envOboFull.ADO_AUTH)
    ∧ ((getAzureDevOpsToken none "u" provFix envOboFull).2.2.any Event.isOboStart
        = (authModeOf envOboFull == "obo"))
    ∧ Event.log (LogRecord.webApiReady "u" (authModeOf envOboFull))
        ∈ [Event.log (LogRecord.oboStart (some "ua-jwt") (some "tid") (some "cid")
              (some "s3cret-value") "u"),
           Event.construct (Credential.leaf
              (Cred.onBehalfOf "tid" "cid" "s3cret-value" "ua-jwt")),
           Event.getToken (Credential.leaf
              (Cred.onBehalfOf "tid" "cid" "s3cret-value" "ua-jwt")) adoScope,
           Event.log (LogRecord.oboAcquired (some 1000)),
           Event.log (LogRecord.webApiReady "u" "obo")] :=
  have H := C7_authmode_derived_per_call none "u" true "v" "ua" provFix envOboFull
  ⟨H.1, H.2.1,
   H.2.2 (Connection.createWithBearerToken "u" "tok" ⟨"AzureDevOps.MCP", "v", "ua"⟩)
     envOboFull
     [Event.log (LogRecord.oboStart (some "ua-jwt") (some "tid") (some "cid")
        (some "s3cret-value") "u"),
      Event.construct (Credential.leaf
        (Cred.onBehalfOf "tid" "cid" "s3cret-value" "ua-jwt")),
      Event.getToken (Credential.leaf
        (Cred.onBehalfOf "tid" "cid" "s3cret-value" "ua-jwt")) adoScope,
      Event.log (LogRecord.oboAcquired (some 1000)),
      Event.log (LogRecord.webApiReady "u" "obo")]
     (by decide)⟩

/-- Claim C8: on the default path, a truthy startup tenant id yields the chain
`[AzureCliCredential(tenant), DefaultAzureCredential]` with the tenant-scoped
CLI credential strictly first — it is always the first entry contacted, and
the ambient default credential is contacted only if the CLI credential fails —
while an absent tenant id yields the single ambient default credential; the
resolution's token request targets exactly this credential. (In-order trying
is the chain semantics of the external SDK, modelled by `chainAttempts`.) -/
theorem C8_cli_before_default (st : Option String) (url : String)
    (provider : Cred → String → Option AccessToken) (scope : String) (env : Env) :
    (truthy st = true →
      defaultPathCredential st
        = Credential.chained [Cred.azureCli (st.getD ""), Cred.defaultAzure]
      ∧ (chainAttempts provider [Cred.azureCli (st.getD ""), Cred.defaultAzure] scope).1.head?
          = some (Cred.azureCli (st.getD ""))
      ∧ (∀ t, provider (Cred.azureCli (st.getD "")) scope = some t →
          chainAttempts provider [Cred.azureCli (st.getD ""), Cred.defaultAzure] scope
            = ([Cred.azureCli (st.getD "")], some t))
      ∧ (provider (Cred.azureCli (st.getD "")) scope = none →
          chainAttempts provider [Cred.azureCli (st.getD ""), Cred.defaultAzure] scope
            = ([Cred.azureCli (st.getD ""), Cred.defaultAzure],
               provider Cred.defaultAzure scope)))
    ∧ (truthy st = false → defaultPathCredential st = Credential.leaf Cred.defaultAzure)
    ∧ (authModeOf env ≠ "obo" →
      Event.getToken (defaultPathCredential st) adoScope
        ∈ (getAzureDevOpsToken st url provider env).2.2) := by
  refine ⟨?_, ?_, ?_⟩
  · intro hst
    refine ⟨by simp [defaultPathCredential, hst], ?_, ?_, ?_⟩
    · cases hp : provider (Cred.azureCli (st.getD "")) scope <;>
        simp [chainAttempts, hp]
    · intro t hp
      simp [chainAttempts, hp]
    · intro hp
      cases hq : provider Cred.defaultAzure scope <;>
        simp [chainAttempts, hp, hq]
  · intro hst
    simp [defaultPathCredential, hst]
  · intro h
    rw [getToken_default_eq st url provider env h]
    unfold defaultResolve
    dsimp only
    split <;> simp

theorem C8_cli_before_default_witness :
    (defaultPathCredential (some "t")
        = Credential.chained [Cred.azureCli "t", Cred.defaultAzure]
      ∧ chainAttempts provFix [Cred.azureCli "t", Cred.defaultAzure] "s"
        = ([Cred.azureCli "t"], some ⟨"tok", 1000⟩))
    ∧ Event.getToken (defaultPathCredential (some "t")) adoScope
      ∈ (getAzureDevOpsToken (some "t") "u" provFix envBare).2.2 :=
  have H := C8_cli_before_default (some "t") "u" provFix "s" envBare
  ⟨⟨(H.1 rfl).1, (H.1 rfl).2.2.1 ⟨"tok", 1000⟩ rfl⟩, H.2.2 (by decide)⟩

/-- Claim C9, counterexample: with both tenant environment variables unset at call
time, the two-name sourcing yields no tenant — yet the resolution succeeds,
constructing the OBO credential with the tenant `"t3"` taken from a third
source, the startup-captured `tenantId` (the `--tenant` flag or the startup
value of `AZURE_AD_TENANT_ID`, line 38). This refutes "exactly two accepted
naming variants … for every field". -/
theorem C9_counterexample :
    truthy (jsOr envOboNoTenantVars.AZURE_AD_TENANT_ID
        envOboNoTenantVars.AZURE_TENANT_ID) = false
    ∧ (getAzureDevOpsToken (some "t3") "u" provFix envOboNoTenantVars).1
      = Except.ok ⟨"tok", 1000⟩
    ∧ Event.construct (Credential.leaf (Cred.onBehalfOf "t3" "cid" "cs" "ua-jwt"))
      ∈ (getAzureDevOpsToken (some "t3") "u" provFix envOboNoTenantVars).2.2 := by
  decide

/-- Claim C9, amended: the user assertion, client id and client secret are each
sourced from exactly two environment-variable names in fixed priority order
with the first non-empty value winning (`oboUserAssertionOf`, `oboClientIdOf`,
`oboClientSecretOf`); the tenant id is sourced from its two names with a third
fallback to the startup-captured tenant (`oboTenantOf`). The credential the
resolution constructs carries exactly these sourced values. -/
theorem C9_field_sourcing (st : Option String) (url : String)
    (provider : Cred → String → Option AccessToken) (env : Env)
    (h : authModeOf env = "obo")
    (hu : truthy (oboUserAssertionOf env) = true)
    (ht : truthy (oboTenantOf st env) = true)
    (hcid : truthy (oboClientIdOf env) = true)
    (hcs : truthy (oboClientSecretOf env) = true) :
    Event.construct (Credential.leaf (oboCredOf st env))
      ∈ (getAzureDevOpsToken st url provider env).2.2 := by
  rw [getToken_obo_eq st url provider env h]
  unfold oboResolve
  dsimp only
  simp [hu, ht, hcid, hcs]
  split <;> simp

theorem C9_field_sourcing_witness :
    Event.construct (Credential.leaf (oboCredOf none envOboFull))
      ∈ (getAzureDevOpsToken none "u" provFix envOboFull).2.2 :=
  C9_field_sourcing none "u" provFix envOboFull
    (by decide) (by decide) (by decide) (by decide) (by decide)

/-- Claim C10: the mode flag is compared after ASCII lowercasing — the OBO path runs
exactly when the lowercased `ADO_AUTH` equals `"obo"`; any other value (unset
included) silently takes the default path, which never raises a configuration
error; and a successful client construction uses the direct bearer-token
constructor exactly when the same lowercased comparison holds again and the
SDK surface exposes that constructor. -/
theorem C10_mode_comparison (st : Option String) (url : String) (hc : Bool)
    (pv ua : String) (provider : Cred → String → Option AccessToken) (env : Env) :
    ((getAzureDevOpsToken st url provider env).2.2.any Event.isOboStart
        = (authModeOf env == "obo"))
    ∧ (authModeOf env ≠ "obo" → ∀ m,
        (getAzureDevOpsToken st url provider env).1
          ≠ Except.error (AdoError.configError m))
    ∧ (∀ c env1 ev, getAzureDevOpsClient st url hc pv ua provider env
          = (Except.ok c, env1, ev) →
        c.viaBearerCtor = ((authModeOf env == "obo") && hc)) := by
  refine ⟨trace_oboStart_iff_mode st url provider env, ?_, ?_⟩
  · intro h m
    rw [getToken_default_eq st url provider env h]
    unfold defaultResolve
    dsimp only
    split <;> simp
  · intro c env1 ev hres
    obtain ⟨tok, ev0, hr, -, hcon⟩ :=
      client_ok_cases st url hc pv ua provider env c env1 ev hres
    have hmode : authModeOf env1 = authModeOf env := by
      have hp := resolve_preserves_authMode st url provider env
      rw [hr] at hp
      exact hp
    rw [hcon, hmode]
    cases hcb : (authModeOf env == "obo") && hc <;>
      simp [hcb, Connection.viaBearerCtor]

theorem C10_mode_comparison_witness :
    ((getAzureDevOpsToken none "u" provFix envOboMixedCase).2.2.any Event.isOboStart
        = (authModeOf envOboMixedCase == "obo"))
    ∧ ((getAzureDevOpsToken none "u" provFix envBare).1
        ≠ Except.error (AdoError.configError "ADO_AUTH=obo is set but MCP_USER_ASSERTION was not provided."))
    ∧ (Connection.createWithBearerToken "u" "tok" ⟨"AzureDevOps.MCP", "v", "ua"⟩).viaBearerCtor
        = ((authModeOf envOboMixedCase == "obo") && true) :=
  ⟨(C10_mode_comparison none "u" true "v" "ua" provFix envOboMixedCase).1,
   (C10_mode_comparison none "u" true "v" "ua" provFix envBare).2.1 (by decide) _,
   (C10_mode_comparison none "u" true "v" "ua" provFix envOboMixedCase).2.2
     (Connection.createWithBearerToken "u" "tok" ⟨"AzureDevOps.MCP", "v", "ua"⟩)
     envOboMixedCase
     [Event.log (LogRecord.oboStart (some "ua-jwt") (some "tid") (some "cid")
        (some "s3cret-value") "u"),
      Event.construct (Credential.leaf
        (Cred.onBehalfOf "tid" "cid" "s3cret-value" "ua-jwt")),
      Event.getToken (Credential.leaf
        (Cred.onBehalfOf "tid" "cid" "s3cret-value" "ua-jwt")) adoScope,
      Event.log (LogRecord.oboAcquired (some 1000)),
      Event.log (LogRecord.webApiReady "u" "obo")]
     (by decide)⟩

end AdoMcp
